import Mathlib

/-!
Shallow embedding of the nvrust attestation-report parsing and topology
verification code.

Modelling conventions:
* bytes are `Nat` (inputs of interest are byte buffers, `List Nat`);
* Rust `&l[a..b]` slicing and `l[i]` indexing are modelled by `slice?` and
  `List.get?`; an out-of-range access, which panics in Rust, is mapped to the
  distinguished error `NvError.panic` (likewise `.expect`/`.unwrap` on `None`);
* `HashSet<[u8; 8]>` is modelled by `Finset Pdi`; `from_iter` is `List.toFinset`,
  `remove` is `Finset.erase`, `==` on sets is `Finset` equality;
* `Result<T, NvidiaRemoteAttestationError>` is `Except NvError T`;
* the Rust `while` loops that scan the TLV block advance their cursor by at
  least two bytes per iteration, so they terminate; they are embedded with an
  explicit fuel argument that the wrappers instantiate with `length + 1`,
  which is provably sufficient (`NvError.fuelExhausted` is an artifact of the
  embedding and is shown unreachable for the wrappers' fuel).
-/

/-- Platform Data Information entry: an 8-byte identifier, modelled as a byte list. -/
abbrev Pdi := List Nat

/-- Errors of `NvidiaRemoteAttestationError` (both the `topology` and the
`nvidia-remote-attestation-gpu` crates), plus `panic` for Rust panics and
`fuelExhausted` for the fuel artifact of the loop embedding. -/
inductive NvError where
  | invalidReportLength (message : String) (lengthOfSpdmGetMeasurementRequestMessage reportLength : Nat)
  | invalidSpdmMeasurementLength (message field : String) (lengthOfField reportLength : Nat)
  | invalidOpaqueDataType (message : String) (currentPosition opaqueDataLength : Nat)
  | invalidOpaqueDataSize (message : String) (currentPosition opaqueDataLength : Nat)
  | nvSwitchPdisNotFound
  | invalidSwitchPdisLength (message : String) (length : Nat)
  | invalidGpuAttestationReportsLength (message : String) (expectedLength actualLength : Nat)
  | invalidSwitchPdisTopology (message : String) (expected actual : Finset Pdi)
  | invalidSwitchAttestationReportsLength (message : String) (expectedLength actualLength : Nat)
  | switchGpuPdisNotFound
  | switchPdisNotFound
  | invalidSwitchDeviceGpuPdisLength (message : String) (expectedLength actualLength : Nat)
  | invalidSwitchDeviceGpuPdisTopology (message : String) (expected actual : Finset Pdi)
  | panic
  | fuelExhausted
deriving DecidableEq

/-- Rust slice `&l[a..b]`: defined when `a ≤ b ≤ l.length`, a panic otherwise. -/
def slice? (l : List Nat) (a b : Nat) : Option (List Nat) :=
  if a ≤ b ∧ b ≤ l.length then some ((l.drop a).take (b - a)) else none

/-- Little-endian `u16::from_le_bytes([b0, b1])`. -/
def le16 (b0 b1 : Nat) : Nat := b0 + 256 * b1

/-- Fuel-driven chunking of a byte buffer into consecutive 8-byte groups,
modelling the `while`/`for` loops that cut PDI data at `PDI_DATA_FIELD_SIZE`
strides. -/
def chunk8Go : Nat → List Nat → List (List Nat)
  | 0, _ => []
  | _, [] => []
  | fuel + 1, l => l.take 8 :: chunk8Go fuel (l.drop 8)

/-- Chunking wrapper; `l.length` iterations of fuel always suffice. -/
def chunk8 (l : List Nat) : List (List Nat) := chunk8Go l.length l

namespace SwitchPdis

/-- Source: `topology/src/switch_pdis.rs` (the same module is re-used as
`swtich_pdis` inside the `nvidia-remote-attestation-gpu` crate). -/
def LENGTH_OF_SPDM_GET_MEASUREMENT_REQUEST_MESSAGE : Nat := 37

/-- TLV type field width. -/
def OPAQUE_DATA_FIELD_TYPE : Nat := 2

/-- TLV size field width. -/
def OPAQUE_DATA_FIELD_SIZE : Nat := 2

/-- Width of a single PDI value. -/
def PDI_DATA_FIELD_SIZE : Nat := 8

/-- Recognized TLV type for the concatenated switch PDIs. -/
def OPAQUE_FIELD_ID_SWITCH_PDI : Nat := 22

/-- Embeds `check_spdm_measurement_length`. -/
def check_spdm_measurement_length (spdm : List Nat) (lengthOfField : Nat)
    (fieldName : String) : Except NvError Unit :=
  if spdm.length < lengthOfField then
    .error (.invalidSpdmMeasurementLength
      "SPDM measurement is too short to contain all the fields"
      fieldName lengthOfField spdm.length)
  else .ok ()

/-- Embeds `compute_opaque_data_position` of the `topology` crate: skips the
five 1-byte header fields, reads the 3-byte little-endian measurement-record
length, skips record and 32-byte nonce, reads the 2-byte opaque-data length and
returns (start of the opaque block, its declared length).  The Rust code checks
`spdm.len() >= offset` before reading bytes at `offset .. offset+2` (resp.
`offset+3`), so the subsequent indexing can still panic; `.panic` captures
that. -/
def compute_opaque_data_position (spdm : List Nat) : Except NvError (Nat × Nat) :=
  let start0 := 1 + 1 + 1 + 1 + 1
  match check_spdm_measurement_length spdm start0 "Measurement Record" with
  | .error e => .error e
  | .ok _ =>
    match spdm.get? start0, spdm.get? (start0 + 1), spdm.get? (start0 + 2) with
    | some b0, some b1, some b2 =>
      let measurementRecordLength := b0 + 256 * b1 + 65536 * b2
      let start1 := start0 + 3 + measurementRecordLength + 32
      match check_spdm_measurement_length spdm start1 "Opaque Data" with
      | .error e => .error e
      | .ok _ =>
        match spdm.get? start1, spdm.get? (start1 + 1) with
        | some c0, some c1 => .ok (start1 + OPAQUE_DATA_FIELD_SIZE, le16 c0 c1)
        | _, _ => .error .panic
    | _, _, _ => .error .panic

/-- Embeds the `while` loop of `extract_switch_gpu_pdis_in_opaque_data`: scan
TLV entries (type 2 bytes LE, size 2 bytes LE, value) from `pos`, return the
value of the first entry of type `OPAQUE_FIELD_ID_SWITCH_PDI`.  The Rust slice
operations panic when a header or the matched value runs past the buffer (the
`map_err` in the source is dead code: the range indexing panics first). -/
def extract_switch_gpu_pdis_in_opaque_data_go (opaqueData : List Nat) :
    Nat → Nat → Except NvError (List Nat)
  | 0, _ => .error .fuelExhausted
  | fuel + 1, pos =>
    if pos < opaqueData.length then
      match opaqueData.get? pos, opaqueData.get? (pos + 1) with
      | some t0, some t1 =>
        let dataType := le16 t0 t1
        let pos1 := pos + OPAQUE_DATA_FIELD_TYPE
        match opaqueData.get? pos1, opaqueData.get? (pos1 + 1) with
        | some s0, some s1 =>
          let dataSize := le16 s0 s1
          let pos2 := pos1 + OPAQUE_DATA_FIELD_SIZE
          if dataType = OPAQUE_FIELD_ID_SWITCH_PDI then
            match slice? opaqueData pos2 (pos2 + dataSize) with
            | some v => .ok v
            | none => .error .panic
          else
            extract_switch_gpu_pdis_in_opaque_data_go opaqueData fuel (pos2 + dataSize)
        | _, _ => .error .panic
      | _, _ => .error .panic
    else .error .nvSwitchPdisNotFound

/-- Embeds `extract_switch_gpu_pdis_in_opaque_data`. -/
def extract_switch_gpu_pdis_in_opaque_data (opaqueData : List Nat) : Except NvError (List Nat) :=
  extract_switch_gpu_pdis_in_opaque_data_go opaqueData (opaqueData.length + 1) 0

/-- Embeds `extract_switch_pdis` of the `topology` crate: the concatenated PDI
data must be an exact multiple of 8 bytes and is cut into 8-byte entries. -/
def extract_switch_pdis (switch_gpu_pdis : List Nat) : Except NvError (List Pdi) :=
  if switch_gpu_pdis.length % PDI_DATA_FIELD_SIZE ≠ 0 then
    .error (.invalidSwitchPdisLength
      ("Switch PDIS length is not a multiple of " ++ toString PDI_DATA_FIELD_SIZE)
      switch_gpu_pdis.length)
  else .ok (chunk8 switch_gpu_pdis)

/-- Embeds `extract_switch_pdis_in_gpu_attestation_report_data` (the
neighbor-PDI parser used by the GPU topology check). -/
def extract_switch_pdis_in_gpu_attestation_report_data (report : List Nat) :
    Except NvError (List Pdi) :=
  if report.length < LENGTH_OF_SPDM_GET_MEASUREMENT_REQUEST_MESSAGE then
    .error (.invalidReportLength
      "Report is too short to contain a SPDM GET_MEASUREMENT request message"
      LENGTH_OF_SPDM_GET_MEASUREMENT_REQUEST_MESSAGE report.length)
  else
    let spdm := report.drop LENGTH_OF_SPDM_GET_MEASUREMENT_REQUEST_MESSAGE
    match compute_opaque_data_position spdm with
    | .error e => .error e
    | .ok (start, len) =>
      match slice? spdm start (start + len) with
      | none => .error .panic
      | some opaqueData =>
        match extract_switch_gpu_pdis_in_opaque_data opaqueData with
        | .error e => .error e
        | .ok pdis => extract_switch_pdis pdis

end SwitchPdis

namespace DevicePdis

/-- Source: `nvidia-remote-attestation-gpu/src/device_pdis.rs`. -/
def LENGTH_OF_SPDM_GET_MEASUREMENT_REQUEST_MESSAGE : Nat := 37

/-- Number of attached-device PDIs the device parser extracts. -/
def TOTAL_NUMBER_OF_PDIS : Nat := 8

/-- TLV type field width. -/
def OPAQUE_DATA_FIELD_TYPE : Nat := 2

/-- TLV size field width. -/
def OPAQUE_DATA_FIELD_SIZE : Nat := 2

/-- Width of a single PDI value. -/
def PDI_DATA_FIELD_SIZE : Nat := 8

/-- Recognized TLV type for the switch's own PDI. -/
def OPAQUE_FIELD_ID_DEVICE_PDI : Nat := 22

/-- Recognized TLV type for the concatenated attached-device PDIs. -/
def OPAQUE_FIELD_ID_SWITCH_GPU_PDIS : Nat := 26

/-- Result record of the device parser (`SwitchDevicePdis` in the source). -/
structure SwitchDevicePdis where
  switch_device_gpu_pdis : List Pdi
  switch_pdis : Pdi
deriving DecidableEq

/-- Embeds the device crate's `check_spdm_measurement_length` (its message
interpolates the field name, unlike the `topology` crate's). -/
def check_spdm_measurement_length (spdm : List Nat) (lengthOfField : Nat)
    (fieldName : String) : Except NvError Unit :=
  if spdm.length < lengthOfField then
    .error (.invalidSpdmMeasurementLength
      (fieldName ++ " is too short to contain a SPDM GET_MEASUREMENT request message")
      fieldName lengthOfField spdm.length)
  else .ok ()

/-- Embeds the device crate's `compute_opaque_data_position`.  Unlike the
`topology` crate's version, it adds the 2-byte `OPAQUE_DATA` field size to the
offset before reading the 2-byte length, so it reads the "length" out of the
first two bytes of the opaqueData value region and reports the opaqueData block as
starting there. -/
def compute_opaque_data_position (spdm : List Nat) : Except NvError (Nat × Nat) :=
  let start0 := 1 + 1 + 1 + 1 + 1
  match check_spdm_measurement_length spdm start0 "Measurement Record" with
  | .error e => .error e
  | .ok _ =>
    match spdm.get? start0, spdm.get? (start0 + 1), spdm.get? (start0 + 2) with
    | some b0, some b1, some b2 =>
      let measurementRecordLength := b0 + 256 * b1 + 65536 * b2
      let start1 := start0 + 3 + measurementRecordLength + 32 + OPAQUE_DATA_FIELD_SIZE
      match check_spdm_measurement_length spdm start1 "Opaque Data" with
      | .error e => .error e
      | .ok _ =>
        match spdm.get? start1, spdm.get? (start1 + 1) with
        | some c0, some c1 => .ok (start1, le16 c0 c1)
        | _, _ => .error .panic
    | _, _, _ => .error .panic

/-- Embeds the `while` loop of the device crate's `extract_switch_pdis` (the
own-PDI scan).  Faithful to the source, the cursor is advanced past the 2-byte
type field but never past the 2-byte size field; on a match the code does
`pos += data_size` and then returns `opaque_data[pos..pos + data_size]`. -/
def extract_switch_pdis_go (opaqueData : List Nat) :
    Nat → Nat → Except NvError (Pdi × Nat)
  | 0, _ => .error .fuelExhausted
  | fuel + 1, pos =>
    if pos < opaqueData.length then
      match opaqueData.get? pos, opaqueData.get? (pos + 1) with
      | some t0, some t1 =>
        let dataType := le16 t0 t1
        let pos1 := pos + OPAQUE_DATA_FIELD_TYPE
        match opaqueData.get? pos1, opaqueData.get? (pos1 + 1) with
        | some s0, some s1 =>
          let dataSize := le16 s0 s1
          if dataType = OPAQUE_FIELD_ID_DEVICE_PDI then
            if dataSize ≠ PDI_DATA_FIELD_SIZE then
              .error (.invalidSwitchPdisLength
                ("`OPAQUE_FIELD_ID_DEVICE_PDI` data size is invalid, expected "
                  ++ toString PDI_DATA_FIELD_SIZE ++ ", got " ++ toString dataSize)
                dataSize)
            else
              let pos2 := pos1 + dataSize
              match slice? opaqueData pos2 (pos2 + dataSize) with
              | some v => .ok (v, pos2)
              | none => .error .panic
          else
            extract_switch_pdis_go opaqueData fuel (pos1 + dataSize)
        | _, _ => .error .panic
      | _, _ => .error .panic
    else .error .switchPdisNotFound

/-- Embeds the device crate's `extract_switch_pdis`. -/
def extract_switch_pdis (opaqueData : List Nat) : Except NvError (Pdi × Nat) :=
  extract_switch_pdis_go opaqueData (opaqueData.length + 1) 0

/-- Embeds the `while` loop of the device crate's `extract_switch_gpu_pdis`
(the attached-PDI scan, resumed at the position returned by the own-PDI scan).
Faithful to the source, on a match the value is read from the position right
after the type field (the size field is never skipped). -/
def extract_switch_gpu_pdis_go (opaqueData : List Nat) :
    Nat → Nat → Except NvError (List Nat)
  | 0, _ => .error .fuelExhausted
  | fuel + 1, pos =>
    if pos < opaqueData.length then
      match opaqueData.get? pos, opaqueData.get? (pos + 1) with
      | some t0, some t1 =>
        let dataType := le16 t0 t1
        let pos1 := pos + OPAQUE_DATA_FIELD_TYPE
        match opaqueData.get? pos1, opaqueData.get? (pos1 + 1) with
        | some s0, some s1 =>
          let dataSize := le16 s0 s1
          if dataType = OPAQUE_FIELD_ID_SWITCH_GPU_PDIS then
            match slice? opaqueData pos1 (pos1 + dataSize) with
            | some v => .ok v
            | none => .error .panic
          else
            extract_switch_gpu_pdis_go opaqueData fuel (pos1 + dataSize)
        | _, _ => .error .panic
      | _, _ => .error .panic
    else .error .switchGpuPdisNotFound

/-- Embeds the device crate's `extract_switch_gpu_pdis`. -/
def extract_switch_gpu_pdis (opaqueData : List Nat) (pos : Nat) : Except NvError (List Nat) :=
  extract_switch_gpu_pdis_go opaqueData (opaqueData.length + 1) pos

/-- Embeds `extract_switch_device_gpu_pdis`: requires at least
`TOTAL_NUMBER_OF_PDIS * PDI_DATA_FIELD_SIZE = 64` bytes and cuts the first 64
bytes into 8 PDIs, ignoring any excess. -/
def extract_switch_device_gpu_pdis (switch_gpu_pdis : List Nat) : Except NvError (List Pdi) :=
  if switch_gpu_pdis.length < TOTAL_NUMBER_OF_PDIS * PDI_DATA_FIELD_SIZE then
    .error (.invalidSwitchPdisLength
      "Switch GPU PDIS is too short to contain all the PDIS" switch_gpu_pdis.length)
  else .ok (chunk8 (switch_gpu_pdis.take (TOTAL_NUMBER_OF_PDIS * PDI_DATA_FIELD_SIZE)))

/-- Embeds `extract_switch_device_pdis_in_opaque_data`. -/
def extract_switch_device_pdis_in_opaque_data (opaqueData : List Nat) :
    Except NvError (List Nat × Pdi) :=
  match extract_switch_pdis opaqueData with
  | .error e => .error e
  | .ok (switch_pdis, pos) =>
    match extract_switch_gpu_pdis opaqueData pos with
    | .error e => .error e
    | .ok switch_gpu_pdis => .ok (switch_gpu_pdis, switch_pdis)

/-- Embeds `extract_device_pdis_in_gpu_attestation_report_data` (the
attached-PDI parser used by the switch topology check). -/
def extract_device_pdis_in_gpu_attestation_report_data (report : List Nat) :
    Except NvError SwitchDevicePdis :=
  if report.length < LENGTH_OF_SPDM_GET_MEASUREMENT_REQUEST_MESSAGE then
    .error (.invalidReportLength
      "Report is too short to contain a SPDM GET_MEASUREMENT request message"
      LENGTH_OF_SPDM_GET_MEASUREMENT_REQUEST_MESSAGE report.length)
  else
    let spdm := report.drop LENGTH_OF_SPDM_GET_MEASUREMENT_REQUEST_MESSAGE
    match compute_opaque_data_position spdm with
    | .error e => .error e
    | .ok (start, len) =>
      match slice? spdm start (start + len) with
      | none => .error .panic
      | some opaqueData =>
        match extract_switch_device_pdis_in_opaque_data opaqueData with
        | .error e => .error e
        | .ok (raw, switch_pdis) =>
          match extract_switch_device_gpu_pdis raw with
          | .error e => .error e
          | .ok switch_device_gpu_pdis => .ok ⟨switch_device_gpu_pdis, switch_pdis⟩

end DevicePdis

/-!
Embedding of `nvidia-remote-attestation-gpu/src/topology.rs`: the GPU and
switch topology checks.
-/

/-- Number of GPU attestation reports the GPU topology check expects. -/
def NUMBER_OF_GPU_TOPOLOGY_CHECK_REPORTS : Nat := 8

/-- Number of enabled switch PDIs each GPU report must yield. -/
def NUMBER_OF_SWITCH_PDIS : Nat := 4

/-- Number of switch attestation reports the switch topology check expects. -/
def NUMBER_OF_SWITCH_ATTESTATION_REPORTS : Nat := 4

/-- The disabled PDI sentinel (all zeroes), removed from each report's set. -/
def DISABLED_PDI : Pdi := List.replicate 8 0

/-- Embeds the `for` loop of `gpu_topology_check`: `acc` is the
`unique_switch_pdis_set` accumulator (`None` before the first report).  The
source's final `.expect` on an empty accumulator is a panic. -/
def gpu_topology_go : List (List Nat) → Option (Finset Pdi) → Except NvError (Finset Pdi)
  | [], none => .error .panic
  | [], some s => .ok s
  | evidence :: rest, acc =>
    match SwitchPdis.extract_switch_pdis_in_gpu_attestation_report_data evidence with
    | .error e => .error e
    | .ok switchPdisInEvidence =>
      let switchPdisSet := switchPdisInEvidence.toFinset.erase DISABLED_PDI
      if switchPdisSet.card ≠ NUMBER_OF_SWITCH_PDIS then
        .error (.invalidSwitchPdisLength "Invalid number of switch PDIS" switchPdisSet.card)
      else
        match acc with
        | some s =>
          if s ≠ switchPdisSet then
            .error (.invalidSwitchPdisTopology "Invalid switch PDIS topology" s switchPdisSet)
          else gpu_topology_go rest (some s)
        | none => gpu_topology_go rest (some switchPdisSet)

/-- Embeds `gpu_topology_check`. -/
def gpu_topology_check (gpu_attestation_reports : List (List Nat)) :
    Except NvError (Finset Pdi) :=
  if gpu_attestation_reports.length ≠ NUMBER_OF_GPU_TOPOLOGY_CHECK_REPORTS then
    .error (.invalidGpuAttestationReportsLength "Invalid number of GPU attestation reports"
      8 gpu_attestation_reports.length)
  else gpu_topology_go gpu_attestation_reports none

/-- The checks `gpu_topology_check` performs on one report, in source order:
parse the neighbor PDIs, deduplicate into a set, drop the disabled sentinel,
require exactly `NUMBER_OF_SWITCH_PDIS` entries.  This is the per-report body
of the source's loop, split out to state the specification. -/
def gpu_report_derived_set (report : List Nat) : Except NvError (Finset Pdi) :=
  match SwitchPdis.extract_switch_pdis_in_gpu_attestation_report_data report with
  | .error e => .error e
  | .ok pdis =>
    let s := pdis.toFinset.erase DISABLED_PDI
    if s.card ≠ NUMBER_OF_SWITCH_PDIS then
      .error (.invalidSwitchPdisLength "Invalid number of switch PDIS" s.card)
    else .ok s

/-- Embeds the `for` loop of `switch_topology_check`; `acc` is the
`unique_switch_device_gpu_pdis_set` accumulator. -/
def switch_topology_go (numGpus : Nat) (uniqueSwitchPdisSet : Finset Pdi) :
    List (List Nat) → Option (Finset Pdi) → Except NvError Unit
  | [], _ => .ok ()
  | report :: rest, acc =>
    match DevicePdis.extract_device_pdis_in_gpu_attestation_report_data report with
    | .error e => .error e
    | .ok res =>
      if res.switch_pdis ∉ uniqueSwitchPdisSet then .error .switchPdisNotFound
      else
        let s := res.switch_device_gpu_pdis.toFinset
        if s.card ≠ numGpus then
          .error (.invalidSwitchDeviceGpuPdisLength
            "Invalid number of switch device GPU PDIS" numGpus s.card)
        else
          match acc with
          | some s0 =>
            if s0 ≠ s then
              .error (.invalidSwitchDeviceGpuPdisTopology
                "Invalid switch device GPU PDIS topology" s0 s)
            else switch_topology_go numGpus uniqueSwitchPdisSet rest (some s0)
          | none => switch_topology_go numGpus uniqueSwitchPdisSet rest (some s)

/-- Embeds `switch_topology_check`. -/
def switch_topology_check (switch_attestation_reports : List (List Nat))
    (num_gpus : Nat) (unique_switch_pdis_set : Finset Pdi) : Except NvError Unit :=
  if switch_attestation_reports.length ≠ NUMBER_OF_SWITCH_ATTESTATION_REPORTS then
    .error (.invalidSwitchAttestationReportsLength
      "Invalid number of switch attestation reports"
      NUMBER_OF_SWITCH_ATTESTATION_REPORTS switch_attestation_reports.length)
  else switch_topology_go num_gpus unique_switch_pdis_set switch_attestation_reports none

/-- The checks `switch_topology_check` performs on one report, in source order:
parse own and attached PDIs, require the own PDI to be accepted, deduplicate the
attached PDIs into a set, require exactly `numGpus` entries. -/
def switch_report_derived_set (numGpus : Nat) (accepted : Finset Pdi)
    (report : List Nat) : Except NvError (Finset Pdi) :=
  match DevicePdis.extract_device_pdis_in_gpu_attestation_report_data report with
  | .error e => .error e
  | .ok res =>
    if res.switch_pdis ∉ accepted then .error .switchPdisNotFound
    else
      let s := res.switch_device_gpu_pdis.toFinset
      if s.card ≠ numGpus then
        .error (.invalidSwitchDeviceGpuPdisLength
          "Invalid number of switch device GPU PDIS" numGpus s.card)
      else .ok s

/-!
Embedding of the remote-attestation client pieces
(`remote-attestation/src/utils.rs`, `remote-attestation-verifier/src/...`).
-/

/-- JSON values, modelling `serde_json::Value`. -/
inductive Json where
  | null
  | bool (b : Bool)
  | num (n : Int)
  | str (s : String)
  | arr (elems : List Json)
  | obj (fields : List (String × Json))

/-- Integer indexing `value.get(i)` of `serde_json`: defined on arrays only. -/
def jsonGetIdx (v : Json) (i : Nat) : Option Json :=
  match v with
  | .arr elems => elems.get? i
  | _ => none

/-- The `as_array` accessor of `serde_json::Value`. -/
def jsonAsArray : Json → Option (List Json)
  | .arr elems => some elems
  | _ => none

/-- The `as_str` accessor of `serde_json::Value`. -/
def jsonAsStr : Json → Option String
  | .str s => some s
  | _ => none

/-- The variants of `AttestError` reached by the modelled code paths.  Error
payloads of foreign types (`reqwest::Error`, ...) are dropped. -/
inductive AttestError where
  | remoteAttestationFailed
  | responseError (body : String)
  | parseResponseError
  | jsonError (message : String)
  | urlParseError
  | headerDecodeError
  | invalidJwtToken (message : String)
  | certificateDecodeError
  | certificateParseError
  | serviceKeyParseError
deriving DecidableEq

/-- Discriminator for the `InvalidJwtToken` variant. -/
def isInvalidJwtTokenResult : Except AttestError String → Bool
  | .error (.invalidJwtToken _) => true
  | _ => false

/-- Embeds `get_overall_claims_token` (`remote-attestation/src/utils.rs`): take
element 0 of the response, require it to be an array, take its element 1,
require it to be a string.  On a shape failure the source wraps a custom
`serde` message in `AttestError::JsonError`. -/
def get_overall_claims_token (token : Json) : Except AttestError String :=
  match (jsonGetIdx token 0).bind jsonAsArray with
  | none => .error (.jsonError "Token structure invalid: first element is not an array")
  | some overallTokenArr =>
    match (overallTokenArr.get? 1).bind jsonAsStr with
    | none => .error (.jsonError "Token structure invalid: second element is not a string")
    | some overallToken => .ok overallToken

/-- Decoded NRAS token claims (`NvidiaAttestationClaims`). -/
structure NvidiaAttestationClaims where
  overall_attestation_result : Bool
  additional_claims : List (String × Json)

/-- An HTTP response as the client observes it: status code, body text, and the
result of decoding the body as JSON (`none` models a `serde` decode failure). -/
structure HttpResponse where
  status : Nat
  body : String
  jsonBody : Option Json

/-- Models `reqwest::StatusCode::is_success` (2xx). -/
def is_success (status : Nat) : Bool := 200 ≤ status && status ≤ 299

/-- Embeds the response handling of `verify_gpu_attestation`
(`remote-attestation-verifier/src/remote_gpu_attestation.rs`, the code after
the POST returns): non-2xx yields `ResponseError` with the body text, an
undecodable body yields `ParseResponseError`, otherwise the overall claims
token is extracted and decoded.  `decodeNrasToken` abstracts the
network-and-crypto `decode_nras_token` step. -/
def verify_gpu_attestation_response
    (decodeNrasToken : String → Except AttestError NvidiaAttestationClaims)
    (response : HttpResponse) : Except AttestError (Bool × Json) :=
  if ¬ is_success response.status then .error (.responseError response.body)
  else
    match response.jsonBody with
    | none => .error .parseResponseError
    | some responseJson =>
      match get_overall_claims_token responseJson with
      | .error e => .error e
      | .ok mainJwtToken =>
        match decodeNrasToken mainJwtToken with
        | .error e => .error e
        | .ok claims => .ok (claims.overall_attestation_result, responseJson)

/-- Embeds the response handling of `verify_nvswitch_attestation`
(`remote-attestation-verifier/src/remote_nvswitch_attestation.rs`); the source
duplicates the GPU path's handling verbatim. -/
def verify_nvswitch_attestation_response
    (decodeNrasToken : String → Except AttestError NvidiaAttestationClaims)
    (response : HttpResponse) : Except AttestError (Bool × Json) :=
  if ¬ is_success response.status then .error (.responseError response.body)
  else
    match response.jsonBody with
    | none => .error .parseResponseError
    | some responseJson =>
      match get_overall_claims_token responseJson with
      | .error e => .error e
      | .ok mainJwtToken =>
        match decodeNrasToken mainJwtToken with
        | .error e => .error e
        | .ok claims => .ok (claims.overall_attestation_result, responseJson)

/-- Default GPU verifier URL (`constants.rs`). -/
def REMOTE_GPU_VERIFIER_SERVICE_URL : String :=
  "https://nras.attestation.nvidia.com/v3/attest/gpu"

/-- Default claims version (`constants.rs`). -/
def DEFAULT_CLAIMS_VERSION : String := "2.0"

/-- Default request timeout in seconds (`constants.rs`). -/
def DEFAULT_TIMEOUT_SECS : Nat := 30

/-- Environment variable consulted by `get_allow_hold_cert` (`constants.rs`). -/
def NV_ALLOW_HOLD_CERT_KEY : String := "NV_ALLOW_HOLD_CERT"

/-- Caller-supplied options (`AttestRemoteOptions`). -/
structure AttestRemoteOptions where
  verifier_url : Option String
  allow_hold_cert : Option Bool
  claims_version : Option String
  service_key : Option String
  timeout : Option Nat

/-- Embeds `get_allow_hold_cert` (`remote-attestation/src/utils.rs`):
`certHoldStatus` is the process-global `CERT_HOLD_STATUS` cell, `env` the
process environment.  If the global cell is unset the function reads the
`NV_ALLOW_HOLD_CERT` environment variable and compares it with `"true"`
(an unset or non-unicode variable defaults to the empty string). -/
def get_allow_hold_cert (certHoldStatus : Option Bool) (env : String → Option String) : Bool :=
  match certHoldStatus with
  | some v => v
  | none => ((env NV_ALLOW_HOLD_CERT_KEY).getD "") == "true"

/-- The parts of the outgoing attestation POST that are determined by the
caller's options, the global cert-hold cell and the environment: URL, headers,
payload constants and timeout.  The nonce and evidence list are carried through
unchanged from the explicit arguments (the nonce is kept here as their
representative). -/
structure GpuAttestRequest where
  url : String
  contentTypeJson : Bool
  allowHoldCertHeader : Bool
  authorizationHeader : Option String
  claimsVersion : String
  arch : String
  nonce : String
  timeoutSecs : Nat
deriving DecidableEq

/-- Embeds the request-construction prefix of `verify_gpu_attestation` (lines
up to the POST): defaults are filled from constants, and the cert-hold header
falls back to `get_allow_hold_cert` — hence to global state and the process
environment — when `allow_hold_cert` is `None`.  The `HeaderValue` ASCII
validation of the service key is elided (it does not depend on the
environment). -/
def build_gpu_attestation_request (nonce : String) (opts : AttestRemoteOptions)
    (certHoldStatus : Option Bool) (env : String → Option String) : GpuAttestRequest :=
  ⟨opts.verifier_url.getD REMOTE_GPU_VERIFIER_SERVICE_URL,
   true,
   opts.allow_hold_cert.getD (get_allow_hold_cert certHoldStatus env),
   opts.service_key,
   opts.claims_version.getD DEFAULT_CLAIMS_VERSION,
   "HOPPER",
   nonce,
   opts.timeout.getD DEFAULT_TIMEOUT_SECS⟩

/-!
Embedding of `impl From<i8> for NscqError`
(`remote-attestation-verifier/src/errors.rs`).
-/

/-- The `NscqError` enum. -/
inductive NscqError where
  | nscqRcSuccess
  | nscqRcWarningRdtInitFailure
  | nscqRcErrorNotImplemented
  | nscqRcErrorInvalidUuid
  | nscqRcErrorResourceNotMountable
  | nscqRcErrorOverflow
  | nscqRcErrorUnexpectedValue
  | nscqRcErrorUnsupportedDrv
  | nscqRcErrorDrv
  | nscqRcErrorTimeout
  | nscqRcErrorExt
  | nscqRcErrorUnspecified
deriving DecidableEq

/-- Embeds `From<i8> for NscqError`: the twelve recognized return codes map to
their variants; the catch-all arm of the source executes `panic!`, modelled by
`none`. -/
def nscq_error_from_rc (rc : Int) : Option NscqError :=
  if rc = 0 then some .nscqRcSuccess
  else if rc = 1 then some .nscqRcWarningRdtInitFailure
  else if rc = -1 then some .nscqRcErrorNotImplemented
  else if rc = -2 then some .nscqRcErrorInvalidUuid
  else if rc = -3 then some .nscqRcErrorResourceNotMountable
  else if rc = -4 then some .nscqRcErrorOverflow
  else if rc = -5 then some .nscqRcErrorUnexpectedValue
  else if rc = -6 then some .nscqRcErrorUnsupportedDrv
  else if rc = -7 then some .nscqRcErrorDrv
  else if rc = -8 then some .nscqRcErrorTimeout
  else if rc = -127 then some .nscqRcErrorExt
  else if rc = -128 then some .nscqRcErrorUnspecified
  else none

/-- The recognized NSCQ return codes, in source order. -/
def NSCQ_KNOWN_RCS : List Int := [0, 1, -1, -2, -3, -4, -5, -6, -7, -8, -127, -128]

/-!
Helper lemmas and claim theorems.
-/

set_option maxRecDepth 8192

/-- Concrete well-formed GPU report for the neighbor-PDI parser: SPDM header,
empty measurement record, zero nonce, opaque length 36, and one TLV entry of
type 22 whose value is the four PDIs `[1]*8, [2]*8, [3]*8, [4]*8`. -/
def c1SwitchReport : List Nat :=
  List.replicate 37 0 ++
    ([0, 0, 0, 0, 0] ++ [0, 0, 0] ++ List.replicate 32 0 ++ [36, 0] ++
      ([22, 0, 32, 0] ++ List.replicate 8 1 ++ List.replicate 8 2 ++
        List.replicate 8 3 ++ List.replicate 8 4))

/-- Concrete well-formed switch report for the attached-PDI parser: SPDM
header, empty record, zero nonce, opaque length 80, a type-22 own-PDI entry of
length 8 with value `[9]*8`, then a type-26 entry of length 64 holding eight
PDIs `[10]*8 .. [17]*8`. -/
def c1DeviceReport : List Nat :=
  List.replicate 37 0 ++
    ([0, 0, 0, 0, 0] ++ [0, 0, 0] ++ List.replicate 32 0 ++ [80, 0] ++
      ([22, 0, 8, 0] ++ [9, 9, 9, 9, 9, 9, 9, 9] ++ [26, 0, 64, 0] ++
        (List.range 8).flatMap (fun i => List.replicate 8 (10 + i))))

/-- C1: the claim states that on a well-formed report both parsers return
exactly the embedded PDIs (and the attached-PDI parser also the embedded
own-PDI value).  The neighbor parser does (first conjunct), but the
attached-PDI parser does not: its TLV scan never advances the cursor past the
2-byte size field, so on `c1DeviceReport` it reads the opaque-data length out
of the first entry's type bytes (getting 22), misaligns every subsequent read
and ends in `SwitchGpuPdisNotFound` instead of returning own PDI `[9]*8` and
the eight embedded attached PDIs. -/
theorem c1_device_parser_misparses_wellformed_report :
    SwitchPdis.extract_switch_pdis_in_gpu_attestation_report_data c1SwitchReport =
      .ok [List.replicate 8 1, List.replicate 8 2, List.replicate 8 3, List.replicate 8 4] ∧
    DevicePdis.extract_device_pdis_in_gpu_attestation_report_data c1DeviceReport =
      .error .switchGpuPdisNotFound := by
  constructor <;> rfl

/-- Report whose declared opaque-data length (5) exceeds the zero bytes that
remain after the length field. -/
def c2TruncatedOpaqueReport : List Nat :=
  List.replicate 37 0 ++ (List.replicate 40 0 ++ [5, 0])

/-- Report with a well-formed opaque block of 5 bytes holding a single TLV
entry of type 22 whose declared length (9) exceeds the single remaining
byte. -/
def c2OversizedTlvReport : List Nat :=
  List.replicate 37 0 ++ (List.replicate 40 0 ++ [5, 0] ++ [22, 0, 9, 0, 1])

/-- C2: the claim states that oversized declared lengths yield a typed error
and never an out-of-bounds read or panic.  In fact both cited paths panic: the
report-level slice `&spdm_measurement[start..start + opaque_data_length]` and
the TLV value slice `&opaque_data[pos..pos + data_size]` are taken without any
bound check, so an oversized declared length makes the Rust code index out of
bounds and panic (modelled by `NvError.panic`). -/
theorem c2_oversized_declared_lengths_panic :
    SwitchPdis.extract_switch_pdis_in_gpu_attestation_report_data c2TruncatedOpaqueReport =
      .error .panic ∧
    SwitchPdis.extract_switch_pdis_in_gpu_attestation_report_data c2OversizedTlvReport =
      .error .panic := by
  constructor <;> rfl

/-- C6: every buffer shorter than the 37-byte SPDM `GET_MEASUREMENT` request
message is rejected by both report parsers with `InvalidReportLength` (and, in
particular, no panic and no read happens: the length test is the first
statement of both functions). -/
theorem c6_short_report_invalid_report_length (report : List Nat)
    (h : report.length < 37) :
    SwitchPdis.extract_switch_pdis_in_gpu_attestation_report_data report =
      .error (.invalidReportLength
        "Report is too short to contain a SPDM GET_MEASUREMENT request message"
        37 report.length) ∧
    DevicePdis.extract_device_pdis_in_gpu_attestation_report_data report =
      .error (.invalidReportLength
        "Report is too short to contain a SPDM GET_MEASUREMENT request message"
        37 report.length) := by
  constructor
  · simp [SwitchPdis.extract_switch_pdis_in_gpu_attestation_report_data,
      SwitchPdis.LENGTH_OF_SPDM_GET_MEASUREMENT_REQUEST_MESSAGE, h]
  · simp [DevicePdis.extract_device_pdis_in_gpu_attestation_report_data,
      DevicePdis.LENGTH_OF_SPDM_GET_MEASUREMENT_REQUEST_MESSAGE, h]

/-- Witness for `c6_short_report_invalid_report_length` at the empty buffer. -/
theorem c6_short_report_invalid_report_length_witness :
    SwitchPdis.extract_switch_pdis_in_gpu_attestation_report_data [] =
      .error (.invalidReportLength
        "Report is too short to contain a SPDM GET_MEASUREMENT request message" 37 0) ∧
    DevicePdis.extract_device_pdis_in_gpu_attestation_report_data [] =
      .error (.invalidReportLength
        "Report is too short to contain a SPDM GET_MEASUREMENT request message" 37 0) :=
  c6_short_report_invalid_report_length [] (by decide)

/-- C10: the `From<i8>` conversion maps each of the twelve recognized return
codes to its `NscqError` variant and panics (modelled by `none`) on every other
value of the `i8` range. -/
theorem c10_nscq_error_from_rc_spec :
    (nscq_error_from_rc 0 = some .nscqRcSuccess ∧
     nscq_error_from_rc 1 = some .nscqRcWarningRdtInitFailure ∧
     nscq_error_from_rc (-1) = some .nscqRcErrorNotImplemented ∧
     nscq_error_from_rc (-2) = some .nscqRcErrorInvalidUuid ∧
     nscq_error_from_rc (-3) = some .nscqRcErrorResourceNotMountable ∧
     nscq_error_from_rc (-4) = some .nscqRcErrorOverflow ∧
     nscq_error_from_rc (-5) = some .nscqRcErrorUnexpectedValue ∧
     nscq_error_from_rc (-6) = some .nscqRcErrorUnsupportedDrv ∧
     nscq_error_from_rc (-7) = some .nscqRcErrorDrv ∧
     nscq_error_from_rc (-8) = some .nscqRcErrorTimeout ∧
     nscq_error_from_rc (-127) = some .nscqRcErrorExt ∧
     nscq_error_from_rc (-128) = some .nscqRcErrorUnspecified) ∧
    (∀ rc : Int, -128 ≤ rc → rc ≤ 127 → rc ∉ NSCQ_KNOWN_RCS →
      nscq_error_from_rc rc = none) := by
  refine ⟨by decide, ?_⟩
  intro rc _ _ hmem
  simp only [NSCQ_KNOWN_RCS, List.mem_cons, List.not_mem_nil, or_false, not_or] at hmem
  obtain ⟨e0, e1, e2, e3, e4, e5, e6, e7, e8, e9, e10, e11⟩ := hmem
  simp [nscq_error_from_rc, e0, e1, e2, e3, e4, e5, e6, e7, e8, e9, e10, e11]

/-- Witness for `c10_nscq_error_from_rc_spec`: the unlisted code 5 panics. -/
theorem c10_nscq_error_from_rc_spec_witness : nscq_error_from_rc 5 = none :=
  c10_nscq_error_from_rc_spec.2 5 (by decide) (by decide) (by decide)

/-- C8 counterexample: on a response that is not of the expected shape (here a
bare JSON string) the extractor returns `JsonError`, not the `InvalidJwtToken`
error the claim requires. -/
theorem c8_error_variant_counterexample :
    get_overall_claims_token (Json.str "not-an-array") =
      .error (.jsonError "Token structure invalid: first element is not an array") ∧
    isInvalidJwtTokenResult (get_overall_claims_token (Json.str "not-an-array")) = false := by
  constructor <;> rfl

/-- C8 amended: the extractor returns the string at element 1 of element 0
when the response is an array whose element 0 is a 2-element array
`[header, token]`; every failure is a typed `JsonError` (a custom `serde`
error), not `InvalidJwtToken`. -/
theorem c8_get_overall_claims_token_spec (token : Json) :
    (∀ header s rest, token = Json.arr (Json.arr [header, Json.str s] :: rest) →
      get_overall_claims_token token = .ok s) ∧
    (∀ e, get_overall_claims_token token = .error e → ∃ msg, e = .jsonError msg) := by
  constructor
  · rintro header s rest rfl
    rfl
  · intro e h
    unfold get_overall_claims_token at h
    split at h
    · exact ⟨_, (Except.error.inj h).symm⟩
    · split at h
      · exact ⟨_, (Except.error.inj h).symm⟩
      · exact absurd h (by simp)

/-- Witness for `c8_get_overall_claims_token_spec` on the spec's example
response shape. -/
theorem c8_get_overall_claims_token_spec_witness :
    get_overall_claims_token
      (Json.arr [Json.arr [Json.obj [("alg", Json.str "ES384")], Json.str "abc.def.ghi"]]) =
      .ok "abc.def.ghi" :=
  (c8_get_overall_claims_token_spec _).1 (Json.obj [("alg", Json.str "ES384")])
    "abc.def.ghi" [] rfl

/-- C9 counterexample: with `allow_hold_cert` left unset by the caller, two
runs with identical explicit inputs but different process environments build
different requests — the run whose environment sets `NV_ALLOW_HOLD_CERT=true`
sends the cert-hold header, the other does not.  The claim's assertion that
the core never reads the process environment is false: `get_allow_hold_cert`
falls back to the `CERT_HOLD_STATUS` global and then to the environment. -/
theorem c9_request_depends_on_environment :
    build_gpu_attestation_request "nonce" ⟨none, none, none, none, none⟩ none
        (fun k => if k = "NV_ALLOW_HOLD_CERT" then some "true" else none) ≠
      build_gpu_attestation_request "nonce" ⟨none, none, none, none, none⟩ none
        (fun _ => none) := by
  intro h
  have h2 := congrArg GpuAttestRequest.allowHoldCertHeader h
  simp [build_gpu_attestation_request, get_allow_hold_cert,
    NV_ALLOW_HOLD_CERT_KEY] at h2

/-- C9 amended: the request depends on the process environment and the
`CERT_HOLD_STATUS` global only through the cert-hold fallback; whenever the
caller supplies `allow_hold_cert` explicitly, the constructed request is
identical across arbitrary environments and arbitrary prior global state. -/
theorem c9_request_env_independent_when_explicit (nonce : String)
    (opts : AttestRemoteOptions) (b : Bool) (h : opts.allow_hold_cert = some b)
    (st1 st2 : Option Bool) (env1 env2 : String → Option String) :
    build_gpu_attestation_request nonce opts st1 env1 =
      build_gpu_attestation_request nonce opts st2 env2 := by
  simp [build_gpu_attestation_request, h]

/-- Witness for `c9_request_env_independent_when_explicit` with an explicit
`allow_hold_cert = some false` and maximally different environment/global
state. -/
theorem c9_request_env_independent_when_explicit_witness :
    build_gpu_attestation_request "n" ⟨none, some false, none, none, none⟩
        (some true) (fun _ => some "true") =
      build_gpu_attestation_request "n" ⟨none, some false, none, none, none⟩
        none (fun _ => none) :=
  c9_request_env_independent_when_explicit "n" _ false rfl _ _ _ _

/-- Concatenating the chunks gives back the input (with sufficient fuel). -/
theorem chunk8Go_flatten (fuel : Nat) :
    ∀ l : List Nat, l.length ≤ fuel → (chunk8Go fuel l).flatten = l := by
  induction fuel with
  | zero =>
    intro l h
    rw [List.length_eq_zero.mp (Nat.le_zero.mp h)]
    rfl
  | succ n ih =>
    intro l h
    match l with
    | [] => rfl
    | a :: l' =>
      show (((a :: l').take 8) :: chunk8Go n ((a :: l').drop 8)).flatten = a :: l'
      have hd : ((a :: l').drop 8).length = (a :: l').length - 8 := List.length_drop 8 _
      rw [List.flatten_cons, ih _ (by rw [hd]; simp only [List.length_cons] at h ⊢; omega)]
      exact List.take_append_drop 8 (a :: l')

/-- When the input length is a multiple of 8, every chunk has length 8. -/
theorem chunk8Go_all_len8 (fuel : Nat) :
    ∀ l : List Nat, l.length ≤ fuel → l.length % 8 = 0 →
      ∀ c ∈ chunk8Go fuel l, c.length = 8 := by
  induction fuel with
  | zero =>
    intro l h _ c hc
    rw [List.length_eq_zero.mp (Nat.le_zero.mp h)] at hc
    simp [chunk8Go] at hc
  | succ n ih =>
    intro l h hm c hc
    match l with
    | [] => simp [chunk8Go] at hc
    | a :: l' =>
      have hc' : c ∈ ((a :: l').take 8) :: chunk8Go n ((a :: l').drop 8) := hc
      have hd : ((a :: l').drop 8).length = (a :: l').length - 8 := List.length_drop 8 _
      have hpos : 0 < (a :: l').length := by simp
      rcases List.mem_cons.mp hc' with rfl | hmem
      · have h8 : 8 ≤ (a :: l').length := by omega
        rw [List.length_take]
        omega
      · exact ih _ (by omega) (by omega) c hmem

/-- Number of chunks produced (with sufficient fuel). -/
theorem chunk8Go_length (fuel : Nat) :
    ∀ l : List Nat, l.length ≤ fuel → (chunk8Go fuel l).length = (l.length + 7) / 8 := by
  induction fuel with
  | zero =>
    intro l h
    rw [List.length_eq_zero.mp (Nat.le_zero.mp h)]
    rfl
  | succ n ih =>
    intro l h
    match l with
    | [] => rfl
    | a :: l' =>
      show (((a :: l').take 8) :: chunk8Go n ((a :: l').drop 8)).length = _
      have hd : ((a :: l').drop 8).length = (a :: l').length - 8 := List.length_drop 8 _
      have hpos : 0 < (a :: l').length := by simp
      rw [List.length_cons, ih _ (by omega), hd]
      omega

/-- Wrapper form of `chunk8Go_flatten`. -/
theorem chunk8_flatten (l : List Nat) : (chunk8 l).flatten = l :=
  chunk8Go_flatten l.length l le_rfl

/-- Wrapper form of `chunk8Go_all_len8`. -/
theorem chunk8_all_len8 (l : List Nat) (h : l.length % 8 = 0) :
    ∀ c ∈ chunk8 l, c.length = 8 :=
  chunk8Go_all_len8 l.length l le_rfl h

/-- Wrapper form of `chunk8Go_length`. -/
theorem chunk8_length (l : List Nat) : (chunk8 l).length = (l.length + 7) / 8 :=
  chunk8Go_length l.length l le_rfl

/-- C5 counterexample: the claim says both PDI chunkers accept exactly the
multiples of 8.  The device-side chunker instead accepts a 65-byte payload
(65 is not a multiple of 8), returning the first eight 8-byte chunks, and it
rejects a 32-byte payload although 32 is a multiple of 8. -/
theorem c5_device_chunker_counterexample :
    DevicePdis.extract_switch_device_gpu_pdis (List.replicate 65 0) =
      .ok (List.replicate 8 (List.replicate 8 0)) ∧
    65 % 8 ≠ 0 ∧
    DevicePdis.extract_switch_device_gpu_pdis (List.replicate 32 0) =
      .error (.invalidSwitchPdisLength
        "Switch GPU PDIS is too short to contain all the PDIS" 32) ∧
    32 % 8 = 0 := by
  exact ⟨rfl, by decide, rfl, by decide⟩

/-- C5 amended: the switch-side chunker (`topology` crate) accepts a payload
iff its length is a multiple of 8 and then cuts it exactly into consecutive
8-byte PDIs; the device-side chunker instead accepts a payload iff it has at
least 64 bytes and then returns exactly the first eight 8-byte PDIs, ignoring
any excess; each rejection is the typed `InvalidSwitchPdisLength` error. -/
theorem c5_pdi_chunking_spec (l : List Nat) :
    (l.length % 8 ≠ 0 →
      SwitchPdis.extract_switch_pdis l =
        .error (.invalidSwitchPdisLength
          "Switch PDIS length is not a multiple of 8" l.length)) ∧
    (l.length % 8 = 0 → ∃ cs, SwitchPdis.extract_switch_pdis l = .ok cs ∧
      cs.flatten = l ∧ (∀ c ∈ cs, c.length = 8) ∧ cs.length = l.length / 8) ∧
    (l.length < 64 →
      DevicePdis.extract_switch_device_gpu_pdis l =
        .error (.invalidSwitchPdisLength
          "Switch GPU PDIS is too short to contain all the PDIS" l.length)) ∧
    (64 ≤ l.length → ∃ cs, DevicePdis.extract_switch_device_gpu_pdis l = .ok cs ∧
      cs.flatten = l.take 64 ∧ (∀ c ∈ cs, c.length = 8) ∧ cs.length = 8) := by
  refine ⟨?_, ?_, ?_, ?_⟩
  · intro h
    unfold SwitchPdis.extract_switch_pdis
    simp only [SwitchPdis.PDI_DATA_FIELD_SIZE]
    rw [if_pos h]
    rfl
  · intro h
    refine ⟨chunk8 l, ?_, chunk8_flatten l, chunk8_all_len8 l h, ?_⟩
    · unfold SwitchPdis.extract_switch_pdis
      simp only [SwitchPdis.PDI_DATA_FIELD_SIZE]
      rw [if_neg (not_not_intro h)]
    · rw [chunk8_length]
      omega
  · intro h
    unfold DevicePdis.extract_switch_device_gpu_pdis
    simp only [DevicePdis.TOTAL_NUMBER_OF_PDIS, DevicePdis.PDI_DATA_FIELD_SIZE]
    rw [if_pos h]
  · intro h
    have htk : (l.take 64).length = 64 := by
      rw [List.length_take]
      omega
    refine ⟨chunk8 (l.take 64), ?_, chunk8_flatten _, ?_, ?_⟩
    · unfold DevicePdis.extract_switch_device_gpu_pdis
      simp only [DevicePdis.TOTAL_NUMBER_OF_PDIS, DevicePdis.PDI_DATA_FIELD_SIZE]
      rw [if_neg (Nat.not_lt.mpr h)]
    · exact chunk8_all_len8 _ (by rw [htk])
    · rw [chunk8_length, htk]

/-- Witness for `c5_pdi_chunking_spec`: a 16-byte payload is split by the
switch-side chunker into two PDIs, and a 72-byte payload is cut by the
device-side chunker into its first eight PDIs. -/
theorem c5_pdi_chunking_spec_witness :
    (∃ cs, SwitchPdis.extract_switch_pdis (List.replicate 16 3) = .ok cs ∧
      cs.flatten = List.replicate 16 3 ∧ (∀ c ∈ cs, c.length = 8) ∧ cs.length = 2) ∧
    ∃ cs, DevicePdis.extract_switch_device_gpu_pdis (List.replicate 72 4) = .ok cs ∧
      cs.flatten = (List.replicate 72 4).take 64 ∧ (∀ c ∈ cs, c.length = 8) ∧ cs.length = 8 :=
  ⟨(c5_pdi_chunking_spec (List.replicate 16 3)).2.1 (by decide),
   (c5_pdi_chunking_spec (List.replicate 72 4)).2.2.2 (by decide)⟩

/-- The two attestation submitters handle their responses identically. -/
theorem verify_response_handlers_agree
    (decodeNrasToken : String → Except AttestError NvidiaAttestationClaims)
    (response : HttpResponse) :
    verify_gpu_attestation_response decodeNrasToken response =
      verify_nvswitch_attestation_response decodeNrasToken response := rfl

/-- C7: for both submitters, a non-success status yields `ResponseError`
carrying the body text, a success status with an undecodable body yields
`ParseResponseError`, and a claims value is returned only when the status is a
success and the body decodes (to the returned JSON). -/
theorem c7_attestation_response_handling
    (decodeNrasToken : String → Except AttestError NvidiaAttestationClaims)
    (response : HttpResponse) :
    (is_success response.status = false →
      verify_gpu_attestation_response decodeNrasToken response =
        .error (.responseError response.body) ∧
      verify_nvswitch_attestation_response decodeNrasToken response =
        .error (.responseError response.body)) ∧
    (is_success response.status = true → response.jsonBody = none →
      verify_gpu_attestation_response decodeNrasToken response =
        .error .parseResponseError ∧
      verify_nvswitch_attestation_response decodeNrasToken response =
        .error .parseResponseError) ∧
    (∀ b j,
      verify_gpu_attestation_response decodeNrasToken response = .ok (b, j) ∨
      verify_nvswitch_attestation_response decodeNrasToken response = .ok (b, j) →
      is_success response.status = true ∧ response.jsonBody = some j) := by
  refine ⟨?_, ?_, ?_⟩
  · intro h
    constructor <;>
      simp [verify_gpu_attestation_response, verify_nvswitch_attestation_response, h]
  · intro h hj
    constructor <;>
      simp [verify_gpu_attestation_response, verify_nvswitch_attestation_response, h, hj]
  · intro b j hor
    have h : verify_gpu_attestation_response decodeNrasToken response = .ok (b, j) := by
      rcases hor with h | h
      · exact h
      · rw [verify_response_handlers_agree]
        exact h
    unfold verify_gpu_attestation_response at h
    split at h
    · exact absurd h (by simp)
    · rename_i hcond
      have hs : is_success response.status = true := by
        by_contra hx
        exact hcond (by simp [Bool.not_eq_true] at hx; simp [hx])
      refine ⟨hs, ?_⟩
      split at h
      · exact absurd h (by simp)
      · rename_i jx hjx
        split at h
        · exact absurd h (by simp)
        · split at h
          · exact absurd h (by simp)
          · rw [hjx]
            injection h with h'
            rw [(Prod.mk.injEq _ _ _ _).mp h' |>.2]

/-- Witness for `c7_attestation_response_handling` on a 500 response with body
`"boom"`. -/
theorem c7_attestation_response_handling_witness :
    verify_gpu_attestation_response (fun _ => .error .remoteAttestationFailed)
        ⟨500, "boom", none⟩ = .error (.responseError "boom") ∧
    verify_nvswitch_attestation_response (fun _ => .error .remoteAttestationFailed)
        ⟨500, "boom", none⟩ = .error (.responseError "boom") :=
  (c7_attestation_response_handling (fun _ => .error .remoteAttestationFailed)
    ⟨500, "boom", none⟩).1 rfl

/-- Inversion for the topology-crate length check. -/
theorem switchpdis_check_err_inv (spdm : List Nat) (n : Nat) (f : String)
    (e : NvError) (h : SwitchPdis.check_spdm_measurement_length spdm n f = .error e) :
    e = .invalidSpdmMeasurementLength
      "SPDM measurement is too short to contain all the fields" f n spdm.length := by
  unfold SwitchPdis.check_spdm_measurement_length at h
  split at h
  · exact (Except.error.inj h).symm
  · exact absurd h (by simp)

/-- The topology-crate offset computation never produces a topology-mismatch
error. -/
theorem switchpdis_compute_no_mismatch (spdm : List Nat) (m : String)
    (x y : Finset Pdi) :
    SwitchPdis.compute_opaque_data_position spdm ≠
      .error (.invalidSwitchPdisTopology m x y) := by
  intro h
  unfold SwitchPdis.compute_opaque_data_position at h
  dsimp only at h
  split at h
  · rename_i e' heq
    have h2 := Except.error.inj h
    rw [switchpdis_check_err_inv _ _ _ _ heq] at h2
    exact NvError.noConfusion h2
  · split at h
    · split at h
      · rename_i e' heq
        have h2 := Except.error.inj h
        rw [switchpdis_check_err_inv _ _ _ _ heq] at h2
        exact NvError.noConfusion h2
      · split at h
        · exact absurd h (by simp)
        · exact NvError.noConfusion (Except.error.inj h)
    · exact NvError.noConfusion (Except.error.inj h)

/-- The topology-crate TLV scan never produces a topology-mismatch error. -/
theorem switchpdis_go_no_mismatch (od : List Nat) :
    ∀ (fuel pos : Nat) (m : String) (x y : Finset Pdi),
      SwitchPdis.extract_switch_gpu_pdis_in_opaque_data_go od fuel pos ≠
        .error (.invalidSwitchPdisTopology m x y) := by
  intro fuel
  induction fuel with
  | zero =>
    intro pos m x y h
    exact NvError.noConfusion (Except.error.inj h)
  | succ n ih =>
    intro pos m x y h
    unfold SwitchPdis.extract_switch_gpu_pdis_in_opaque_data_go at h
    dsimp only at h
    split at h
    · split at h
      · split at h
        · split at h
          · split at h
            · exact absurd h (by simp)
            · exact NvError.noConfusion (Except.error.inj h)
          · exact ih _ _ _ _ h
        · exact NvError.noConfusion (Except.error.inj h)
      · exact NvError.noConfusion (Except.error.inj h)
    · exact NvError.noConfusion (Except.error.inj h)

/-- The topology-crate PDI chunker never produces a topology-mismatch error. -/
theorem switchpdis_chunker_no_mismatch (l : List Nat) (m : String)
    (x y : Finset Pdi) :
    SwitchPdis.extract_switch_pdis l ≠ .error (.invalidSwitchPdisTopology m x y) := by
  intro h
  unfold SwitchPdis.extract_switch_pdis at h
  split at h
  · exact NvError.noConfusion (Except.error.inj h)
  · exact absurd h (by simp)

/-- The neighbor-PDI report parser never produces a topology-mismatch error. -/
theorem gpu_parser_no_mismatch (report : List Nat) (m : String) (x y : Finset Pdi) :
    SwitchPdis.extract_switch_pdis_in_gpu_attestation_report_data report ≠
      .error (.invalidSwitchPdisTopology m x y) := by
  intro h
  unfold SwitchPdis.extract_switch_pdis_in_gpu_attestation_report_data at h
  dsimp only at h
  split at h
  · exact NvError.noConfusion (Except.error.inj h)
  · split at h
    · rename_i e' heq
      rw [Except.error.inj h] at heq
      exact switchpdis_compute_no_mismatch _ _ _ _ heq
    · split at h
      · exact NvError.noConfusion (Except.error.inj h)
      · split at h
        · rename_i e' heq
          rw [Except.error.inj h] at heq
          exact switchpdis_go_no_mismatch _ _ _ _ _ _ heq
        · exact switchpdis_chunker_no_mismatch _ _ _ _ h

/-- Inversion for the device-crate length check. -/
theorem device_check_err_inv (spdm : List Nat) (n : Nat) (f : String)
    (e : NvError) (h : DevicePdis.check_spdm_measurement_length spdm n f = .error e) :
    e = .invalidSpdmMeasurementLength
      (f ++ " is too short to contain a SPDM GET_MEASUREMENT request message")
      f n spdm.length := by
  unfold DevicePdis.check_spdm_measurement_length at h
  split at h
  · exact (Except.error.inj h).symm
  · exact absurd h (by simp)

/-- The device-crate offset computation never produces an attached-set
topology-mismatch error. -/
theorem device_compute_no_mismatch (spdm : List Nat) (m : String)
    (x y : Finset Pdi) :
    DevicePdis.compute_opaque_data_position spdm ≠
      .error (.invalidSwitchDeviceGpuPdisTopology m x y) := by
  intro h
  unfold DevicePdis.compute_opaque_data_position at h
  dsimp only at h
  split at h
  · rename_i e' heq
    have h2 := Except.error.inj h
    rw [device_check_err_inv _ _ _ _ heq] at h2
    exact NvError.noConfusion h2
  · split at h
    · split at h
      · rename_i e' heq
        have h2 := Except.error.inj h
        rw [device_check_err_inv _ _ _ _ heq] at h2
        exact NvError.noConfusion h2
      · split at h
        · exact absurd h (by simp)
        · exact NvError.noConfusion (Except.error.inj h)
    · exact NvError.noConfusion (Except.error.inj h)

/-- The device-crate own-PDI scan never produces an attached-set
topology-mismatch error. -/
theorem device_ownpdi_go_no_mismatch (od : List Nat) :
    ∀ (fuel pos : Nat) (m : String) (x y : Finset Pdi),
      DevicePdis.extract_switch_pdis_go od fuel pos ≠
        .error (.invalidSwitchDeviceGpuPdisTopology m x y) := by
  intro fuel
  induction fuel with
  | zero =>
    intro pos m x y h
    exact NvError.noConfusion (Except.error.inj h)
  | succ n ih =>
    intro pos m x y h
    unfold DevicePdis.extract_switch_pdis_go at h
    dsimp only at h
    split at h
    · split at h
      · split at h
        · split at h
          · split at h
            · exact NvError.noConfusion (Except.error.inj h)
            · split at h
              · exact absurd h (by simp)
              · exact NvError.noConfusion (Except.error.inj h)
          · exact ih _ _ _ _ h
        · exact NvError.noConfusion (Except.error.inj h)
      · exact NvError.noConfusion (Except.error.inj h)
    · exact NvError.noConfusion (Except.error.inj h)

/-- The device-crate attached-PDI scan never produces an attached-set
topology-mismatch error. -/
theorem device_gpupdis_go_no_mismatch (od : List Nat) :
    ∀ (fuel pos : Nat) (m : String) (x y : Finset Pdi),
      DevicePdis.extract_switch_gpu_pdis_go od fuel pos ≠
        .error (.invalidSwitchDeviceGpuPdisTopology m x y) := by
  intro fuel
  induction fuel with
  | zero =>
    intro pos m x y h
    exact NvError.noConfusion (Except.error.inj h)
  | succ n ih =>
    intro pos m x y h
    unfold DevicePdis.extract_switch_gpu_pdis_go at h
    dsimp only at h
    split at h
    · split at h
      · split at h
        · split at h
          · split at h
            · exact absurd h (by simp)
            · exact NvError.noConfusion (Except.error.inj h)
          · exact ih _ _ _ _ h
        · exact NvError.noConfusion (Except.error.inj h)
      · exact NvError.noConfusion (Except.error.inj h)
    · exact NvError.noConfusion (Except.error.inj h)

/-- The device-crate chunker never produces an attached-set topology-mismatch
error. -/
theorem device_chunker_no_mismatch (l : List Nat) (m : String) (x y : Finset Pdi) :
    DevicePdis.extract_switch_device_gpu_pdis l ≠
      .error (.invalidSwitchDeviceGpuPdisTopology m x y) := by
  intro h
  unfold DevicePdis.extract_switch_device_gpu_pdis at h
  split at h
  · exact NvError.noConfusion (Except.error.inj h)
  · exact absurd h (by simp)

/-- The attached-PDI report parser never produces an attached-set
topology-mismatch error. -/
theorem device_parser_no_mismatch (report : List Nat) (m : String)
    (x y : Finset Pdi) :
    DevicePdis.extract_device_pdis_in_gpu_attestation_report_data report ≠
      .error (.invalidSwitchDeviceGpuPdisTopology m x y) := by
  intro h
  unfold DevicePdis.extract_device_pdis_in_gpu_attestation_report_data at h
  dsimp only at h
  split at h
  · exact NvError.noConfusion (Except.error.inj h)
  · split at h
    · rename_i e' heq
      rw [Except.error.inj h] at heq
      exact device_compute_no_mismatch _ _ _ _ heq
    · split at h
      · exact NvError.noConfusion (Except.error.inj h)
      · split at h
        · rename_i e' heq
          rw [Except.error.inj h] at heq
          unfold DevicePdis.extract_switch_device_pdis_in_opaque_data at heq
          split at heq
          · rename_i e2 heq2
            rw [Except.error.inj heq] at heq2
            exact device_ownpdi_go_no_mismatch _ _ _ _ _ _ heq2
          · split at heq
            · rename_i e2 heq2
              rw [Except.error.inj heq] at heq2
              exact device_gpupdis_go_no_mismatch _ _ _ _ _ _ heq2
            · exact absurd heq (by simp)
        · split at h
          · rename_i e' heq
            rw [Except.error.inj h] at heq
            exact device_chunker_no_mismatch _ _ _ _ heq
          · exact absurd h (by simp)

/-- One step of the GPU topology loop with a reference set already fixed,
phrased through the per-report checks `gpu_report_derived_set`. -/
theorem gpu_go_cons_some (r : List Nat) (rs : List (List Nat)) (s0 : Finset Pdi) :
    gpu_topology_go (r :: rs) (some s0) =
      match gpu_report_derived_set r with
      | .error e => .error e
      | .ok s' =>
        if s0 ≠ s' then
          .error (.invalidSwitchPdisTopology "Invalid switch PDIS topology" s0 s')
        else gpu_topology_go rs (some s0) := by
  rcases hext : SwitchPdis.extract_switch_pdis_in_gpu_attestation_report_data r with e | pdis
  · simp [gpu_topology_go, gpu_report_derived_set, hext]
  · by_cases hcard :
      (pdis.toFinset.erase DISABLED_PDI).card = NUMBER_OF_SWITCH_PDIS
    · simp [gpu_topology_go, gpu_report_derived_set, hext, hcard]
    · simp [gpu_topology_go, gpu_report_derived_set, hext, hcard]

/-- First step of the GPU topology loop, which installs the first report's
derived set as the reference set. -/
theorem gpu_go_cons_none (r : List Nat) (rs : List (List Nat)) :
    gpu_topology_go (r :: rs) none =
      match gpu_report_derived_set r with
      | .error e => .error e
      | .ok s' => gpu_topology_go rs (some s') := by
  rcases hext : SwitchPdis.extract_switch_pdis_in_gpu_attestation_report_data r with e | pdis
  · simp [gpu_topology_go, gpu_report_derived_set, hext]
  · by_cases hcard :
      (pdis.toFinset.erase DISABLED_PDI).card = NUMBER_OF_SWITCH_PDIS
    · simp [gpu_topology_go, gpu_report_derived_set, hext, hcard]
    · simp [gpu_topology_go, gpu_report_derived_set, hext, hcard]

/-- The GPU topology loop with a fixed reference set succeeds iff every
remaining report derives exactly that set. -/
theorem gpu_go_ok_some (rs : List (List Nat)) :
    ∀ s0 s : Finset Pdi,
      gpu_topology_go rs (some s0) = .ok s ↔
        s = s0 ∧ ∀ r ∈ rs, gpu_report_derived_set r = .ok s0 := by
  induction rs with
  | nil =>
    intro s0 s
    constructor
    · intro h
      exact ⟨(Except.ok.inj h).symm, by simp⟩
    · rintro ⟨rfl, _⟩
      rfl
  | cons r rs ih =>
    intro s0 s
    rw [gpu_go_cons_some]
    rcases hd : gpu_report_derived_set r with e | s'
    · simp [hd, List.forall_mem_cons]
    · by_cases hs0 : s0 = s'
      · subst hs0
        simp [hd, List.forall_mem_cons, ih]
      · simp [hd, List.forall_mem_cons, hs0]
        intro _ h2
        exact absurd h2.symm hs0

/-- Error analysis for the GPU topology loop with a fixed reference set. -/
theorem gpu_go_some_error (rs : List (List Nat)) :
    ∀ (s0 : Finset Pdi) (e : NvError),
      gpu_topology_go rs (some s0) = .error e →
        (∃ r ∈ rs, gpu_report_derived_set r = .error e) ∨
        (∃ m a, e = .invalidSwitchPdisTopology m s0 a ∧ a ≠ s0 ∧
          ∃ r ∈ rs, gpu_report_derived_set r = .ok a) := by
  induction rs with
  | nil =>
    intro s0 e h
    simp [gpu_topology_go] at h
  | cons r rs ih =>
    intro s0 e h
    rw [gpu_go_cons_some] at h
    split at h
    · rename_i e' hd
      exact Or.inl ⟨r, List.mem_cons_self r rs, Except.error.inj h ▸ hd⟩
    · rename_i s' hd
      split at h
      · rename_i hne
        exact Or.inr ⟨"Invalid switch PDIS topology", s', (Except.error.inj h).symm,
          Ne.symm hne, r, List.mem_cons_self r rs, hd⟩
      · rcases ih s0 e h with ⟨r', hr', hd'⟩ | ⟨m, a, he, hne, r', hr', hda⟩
        · exact Or.inl ⟨r', List.mem_cons_of_mem _ hr', hd'⟩
        · exact Or.inr ⟨m, a, he, hne, r', List.mem_cons_of_mem _ hr', hda⟩

/-- Error analysis for the GPU topology loop started on a nonempty report
list. -/
theorem gpu_go_none_error (r : List Nat) (rest : List (List Nat)) (e : NvError)
    (h : gpu_topology_go (r :: rest) none = .error e) :
    (∃ r' ∈ r :: rest, gpu_report_derived_set r' = .error e) ∨
    (∃ m a s0, e = .invalidSwitchPdisTopology m s0 a ∧ a ≠ s0 ∧
      gpu_report_derived_set r = .ok s0 ∧
      ∃ r' ∈ rest, gpu_report_derived_set r' = .ok a) := by
  rw [gpu_go_cons_none] at h
  split at h
  · rename_i e' hd
    exact Or.inl ⟨r, List.mem_cons_self r rest, Except.error.inj h ▸ hd⟩
  · rename_i s' hd
    rcases gpu_go_some_error rest s' e h with ⟨r', hr', hd'⟩ | ⟨m, a, he, hne, r', hr', hda⟩
    · exact Or.inl ⟨r', List.mem_cons_of_mem _ hr', hd'⟩
    · exact Or.inr ⟨m, a, s', he, hne, hd, r', hr', hda⟩

/-- Success characterization of `gpu_topology_check`. -/
theorem gpu_check_ok_iff (reports : List (List Nat)) (s : Finset Pdi) :
    gpu_topology_check reports = .ok s ↔
      reports.length = 8 ∧ ∀ r ∈ reports, gpu_report_derived_set r = .ok s := by
  unfold gpu_topology_check
  by_cases hl : reports.length = NUMBER_OF_GPU_TOPOLOGY_CHECK_REPORTS
  · rw [if_neg (not_not_intro hl)]
    have hne : reports ≠ [] := by
      intro hnil
      rw [hnil] at hl
      simp [NUMBER_OF_GPU_TOPOLOGY_CHECK_REPORTS] at hl
    obtain ⟨r, rest, rfl⟩ := List.exists_cons_of_ne_nil hne
    rw [gpu_go_cons_none]
    constructor
    · intro h
      split at h
      · exact absurd h (by simp)
      · rename_i s' hd
        obtain ⟨rfl, hall⟩ := (gpu_go_ok_some rest s' s).mp h
        refine ⟨hl, ?_⟩
        intro r' hr'
        rcases List.mem_cons.mp hr' with rfl | hr2
        · exact hd
        · exact hall _ hr2
    · rintro ⟨_, hall⟩
      have hd := hall r (List.mem_cons_self r rest)
      rw [hd]
      exact (gpu_go_ok_some rest s s).mpr
        ⟨rfl, fun r' hr' => hall _ (List.mem_cons_of_mem _ hr')⟩
  · rw [if_pos hl]
    constructor
    · intro h
      exact absurd h (by simp)
    · rintro ⟨h8, _⟩
      exact absurd h8 hl

/-- The per-report derived set never carries a topology-mismatch error. -/
theorem gpu_derived_no_mismatch (r : List Nat) (m : String) (x y : Finset Pdi) :
    gpu_report_derived_set r ≠ .error (.invalidSwitchPdisTopology m x y) := by
  intro h
  unfold gpu_report_derived_set at h
  split at h
  · rename_i e heq
    rw [Except.error.inj h] at heq
    exact gpu_parser_no_mismatch _ _ _ _ heq
  · dsimp only at h
    split at h
    · exact NvError.noConfusion (Except.error.inj h)
    · exact absurd h (by simp)

/-- C3: `gpu_topology_check` rejects any input that is not exactly 8 reports
with `InvalidGpuAttestationReportsLength`; on 8 reports it succeeds with set
`s` iff every report parses, dedupes to a set, loses the all-zero disabled
PDI, has exactly 4 remaining PDIs and that set equals `s`
(`gpu_report_derived_set` spells out those per-report steps, and the third
conjunct re-expresses it against the parser); a cardinality failure is
reported as the length error of the offending report, and a topology-mismatch
error carries the first report's accepted set together with the divergent set
of some other report. -/
theorem c3_gpu_topology_check_spec (reports : List (List Nat)) :
    (reports.length ≠ 8 →
      gpu_topology_check reports =
        .error (.invalidGpuAttestationReportsLength
          "Invalid number of GPU attestation reports" 8 reports.length)) ∧
    (∀ s, gpu_topology_check reports = .ok s ↔
      reports.length = 8 ∧ ∀ r ∈ reports, gpu_report_derived_set r = .ok s) ∧
    (∀ r s, gpu_report_derived_set r = .ok s →
      s.card = 4 ∧
      ∃ pdis, SwitchPdis.extract_switch_pdis_in_gpu_attestation_report_data r = .ok pdis ∧
        s = pdis.toFinset.erase DISABLED_PDI) ∧
    (∀ m n, gpu_topology_check reports = .error (.invalidSwitchPdisLength m n) →
      ∃ r ∈ reports, gpu_report_derived_set r = .error (.invalidSwitchPdisLength m n)) ∧
    (∀ m ex ac,
      gpu_topology_check reports = .error (.invalidSwitchPdisTopology m ex ac) →
      ac ≠ ex ∧
      (∃ r0 rest, reports = r0 :: rest ∧ gpu_report_derived_set r0 = .ok ex) ∧
      ∃ r ∈ reports, gpu_report_derived_set r = .ok ac) := by
  refine ⟨?_, gpu_check_ok_iff reports, ?_, ?_, ?_⟩
  · intro h
    unfold gpu_topology_check
    simp only [NUMBER_OF_GPU_TOPOLOGY_CHECK_REPORTS]
    rw [if_pos h]
  · intro r s h
    unfold gpu_report_derived_set at h
    split at h
    · exact absurd h (by simp)
    · rename_i pdis heq
      dsimp only at h
      split at h
      · exact absurd h (by simp)
      · rename_i hc
        obtain rfl := (Except.ok.inj h).symm
        exact ⟨not_not.mp hc, pdis, heq, rfl⟩
  · intro m n h
    unfold gpu_topology_check at h
    split at h
    · exact NvError.noConfusion (Except.error.inj h)
    · rename_i hl
      have h8 : reports.length = NUMBER_OF_GPU_TOPOLOGY_CHECK_REPORTS := not_not.mp hl
      have hne : reports ≠ [] := by
        intro hnil
        rw [hnil] at h8
        simp [NUMBER_OF_GPU_TOPOLOGY_CHECK_REPORTS] at h8
      obtain ⟨r, rest, rfl⟩ := List.exists_cons_of_ne_nil hne
      rcases gpu_go_none_error r rest _ h with hfound | ⟨m', a, s0, he, _, _, _⟩
      · exact hfound
      · exact NvError.noConfusion he
  · intro m ex ac h
    unfold gpu_topology_check at h
    split at h
    · exact NvError.noConfusion (Except.error.inj h)
    · rename_i hl
      have h8 : reports.length = NUMBER_OF_GPU_TOPOLOGY_CHECK_REPORTS := not_not.mp hl
      have hne : reports ≠ [] := by
        intro hnil
        rw [hnil] at h8
        simp [NUMBER_OF_GPU_TOPOLOGY_CHECK_REPORTS] at h8
      obtain ⟨r, rest, rfl⟩ := List.exists_cons_of_ne_nil hne
      rcases gpu_go_none_error r rest _ h with ⟨r', _, hd'⟩ | ⟨m', a, s0, he, hne', hd0, r', hr', hda⟩
      · exact absurd hd' (gpu_derived_no_mismatch _ _ _ _)
      · injection he with h1 h2 h3
        subst h1
        subst h2
        subst h3
        exact ⟨hne', ⟨r, rest, rfl, hd0⟩, r', List.mem_cons_of_mem _ hr', hda⟩

/-- Witness for `c3_gpu_topology_check_spec`: the empty input is rejected with
the typed length error. -/
theorem c3_gpu_topology_check_spec_witness :
    gpu_topology_check [] =
      .error (.invalidGpuAttestationReportsLength
        "Invalid number of GPU attestation reports" 8 0) :=
  (c3_gpu_topology_check_spec []).1 (by decide)

/-- One step of the switch topology loop with a reference set already fixed,
phrased through the per-report checks `switch_report_derived_set`. -/
theorem switch_go_cons_some (numGpus : Nat) (accepted : Finset Pdi) (r : List Nat)
    (rs : List (List Nat)) (s0 : Finset Pdi) :
    switch_topology_go numGpus accepted (r :: rs) (some s0) =
      match switch_report_derived_set numGpus accepted r with
      | .error e => .error e
      | .ok s' =>
        if s0 ≠ s' then
          .error (.invalidSwitchDeviceGpuPdisTopology
            "Invalid switch device GPU PDIS topology" s0 s')
        else switch_topology_go numGpus accepted rs (some s0) := by
  rcases hext : DevicePdis.extract_device_pdis_in_gpu_attestation_report_data r with e | res
  · simp [switch_topology_go, switch_report_derived_set, hext]
  · by_cases hm : res.switch_pdis ∈ accepted
    · by_cases hcard : res.switch_device_gpu_pdis.toFinset.card = numGpus
      · simp [switch_topology_go, switch_report_derived_set, hext, hm, hcard]
      · simp [switch_topology_go, switch_report_derived_set, hext, hm, hcard]
    · simp [switch_topology_go, switch_report_derived_set, hext, hm]

/-- First step of the switch topology loop, which installs the first report's
attached set as the reference set. -/
theorem switch_go_cons_none (numGpus : Nat) (accepted : Finset Pdi) (r : List Nat)
    (rs : List (List Nat)) :
    switch_topology_go numGpus accepted (r :: rs) none =
      match switch_report_derived_set numGpus accepted r with
      | .error e => .error e
      | .ok s' => switch_topology_go numGpus accepted rs (some s') := by
  rcases hext : DevicePdis.extract_device_pdis_in_gpu_attestation_report_data r with e | res
  · simp [switch_topology_go, switch_report_derived_set, hext]
  · by_cases hm : res.switch_pdis ∈ accepted
    · by_cases hcard : res.switch_device_gpu_pdis.toFinset.card = numGpus
      · simp [switch_topology_go, switch_report_derived_set, hext, hm, hcard]
      · simp [switch_topology_go, switch_report_derived_set, hext, hm, hcard]
    · simp [switch_topology_go, switch_report_derived_set, hext, hm]

/-- The switch topology loop with a fixed reference set succeeds iff every
remaining report derives exactly that set. -/
theorem switch_go_ok_some (numGpus : Nat) (accepted : Finset Pdi)
    (rs : List (List Nat)) :
    ∀ s0 : Finset Pdi,
      switch_topology_go numGpus accepted rs (some s0) = .ok () ↔
        ∀ r ∈ rs, switch_report_derived_set numGpus accepted r = .ok s0 := by
  induction rs with
  | nil =>
    intro s0
    simp [switch_topology_go]
  | cons r rs ih =>
    intro s0
    rw [switch_go_cons_some]
    rcases hd : switch_report_derived_set numGpus accepted r with e | s'
    · simp [hd, List.forall_mem_cons]
    · by_cases hs0 : s0 = s'
      · subst hs0
        simp [hd, List.forall_mem_cons, ih]
      · simp [hd, List.forall_mem_cons, hs0]
        intro h2
        exact absurd h2.symm hs0

/-- Error analysis for the switch topology loop with a fixed reference set. -/
theorem switch_go_some_error (numGpus : Nat) (accepted : Finset Pdi)
    (rs : List (List Nat)) :
    ∀ (s0 : Finset Pdi) (e : NvError),
      switch_topology_go numGpus accepted rs (some s0) = .error e →
        (∃ r ∈ rs, switch_report_derived_set numGpus accepted r = .error e) ∨
        (∃ m a, e = .invalidSwitchDeviceGpuPdisTopology m s0 a ∧ a ≠ s0 ∧
          ∃ r ∈ rs, switch_report_derived_set numGpus accepted r = .ok a) := by
  induction rs with
  | nil =>
    intro s0 e h
    simp [switch_topology_go] at h
  | cons r rs ih =>
    intro s0 e h
    rw [switch_go_cons_some] at h
    split at h
    · rename_i e' hd
      exact Or.inl ⟨r, List.mem_cons_self r rs, Except.error.inj h ▸ hd⟩
    · rename_i s' hd
      split at h
      · rename_i hne
        exact Or.inr ⟨"Invalid switch device GPU PDIS topology", s',
          (Except.error.inj h).symm, Ne.symm hne, r, List.mem_cons_self r rs, hd⟩
      · rcases ih s0 e h with ⟨r', hr', hd'⟩ | ⟨m, a, he, hne, r', hr', hda⟩
        · exact Or.inl ⟨r', List.mem_cons_of_mem _ hr', hd'⟩
        · exact Or.inr ⟨m, a, he, hne, r', List.mem_cons_of_mem _ hr', hda⟩

/-- Error analysis for the switch topology loop started on a nonempty report
list. -/
theorem switch_go_none_error (numGpus : Nat) (accepted : Finset Pdi)
    (r : List Nat) (rest : List (List Nat)) (e : NvError)
    (h : switch_topology_go numGpus accepted (r :: rest) none = .error e) :
    (∃ r' ∈ r :: rest, switch_report_derived_set numGpus accepted r' = .error e) ∨
    (∃ m a s0, e = .invalidSwitchDeviceGpuPdisTopology m s0 a ∧ a ≠ s0 ∧
      switch_report_derived_set numGpus accepted r = .ok s0 ∧
      ∃ r' ∈ rest, switch_report_derived_set numGpus accepted r' = .ok a) := by
  rw [switch_go_cons_none] at h
  split at h
  · rename_i e' hd
    exact Or.inl ⟨r, List.mem_cons_self r rest, Except.error.inj h ▸ hd⟩
  · rename_i s' hd
    rcases switch_go_some_error numGpus accepted rest s' e h with
      ⟨r', hr', hd'⟩ | ⟨m, a, he, hne, r', hr', hda⟩
    · exact Or.inl ⟨r', List.mem_cons_of_mem _ hr', hd'⟩
    · exact Or.inr ⟨m, a, s', he, hne, hd, r', hr', hda⟩

/-- Success characterization of `switch_topology_check`. -/
theorem switch_check_ok_iff (reports : List (List Nat)) (numGpus : Nat)
    (accepted : Finset Pdi) :
    switch_topology_check reports numGpus accepted = .ok () ↔
      reports.length = 4 ∧
        ∃ s, ∀ r ∈ reports, switch_report_derived_set numGpus accepted r = .ok s := by
  unfold switch_topology_check
  by_cases hl : reports.length = NUMBER_OF_SWITCH_ATTESTATION_REPORTS
  · rw [if_neg (not_not_intro hl)]
    have hne : reports ≠ [] := by
      intro hnil
      rw [hnil] at hl
      simp [NUMBER_OF_SWITCH_ATTESTATION_REPORTS] at hl
    obtain ⟨r, rest, rfl⟩ := List.exists_cons_of_ne_nil hne
    rw [switch_go_cons_none]
    constructor
    · intro h
      split at h
      · exact absurd h (by simp)
      · rename_i s' hd
        have hall := (switch_go_ok_some numGpus accepted rest s').mp h
        refine ⟨hl, s', ?_⟩
        intro r' hr'
        rcases List.mem_cons.mp hr' with rfl | hr2
        · exact hd
        · exact hall _ hr2
    · rintro ⟨_, s, hall⟩
      have hd := hall r (List.mem_cons_self r rest)
      rw [hd]
      exact (switch_go_ok_some numGpus accepted rest s).mpr
        (fun r' hr' => hall _ (List.mem_cons_of_mem _ hr'))
  · rw [if_pos hl]
    constructor
    · intro h
      exact absurd h (by simp)
    · rintro ⟨h4, _⟩
      exact absurd h4 hl

/-- The per-report derived attached set never carries a topology-mismatch
error. -/
theorem switch_derived_no_mismatch (numGpus : Nat) (accepted : Finset Pdi)
    (r : List Nat) (m : String) (x y : Finset Pdi) :
    switch_report_derived_set numGpus accepted r ≠
      .error (.invalidSwitchDeviceGpuPdisTopology m x y) := by
  intro h
  unfold switch_report_derived_set at h
  split at h
  · rename_i e heq
    rw [Except.error.inj h] at heq
    exact device_parser_no_mismatch _ _ _ _ heq
  · dsimp only at h
    split at h
    · exact NvError.noConfusion (Except.error.inj h)
    · split at h
      · exact NvError.noConfusion (Except.error.inj h)
      · exact absurd h (by simp)

/-- C4: `switch_topology_check` rejects any input that is not exactly 4
reports with `InvalidSwitchAttestationReportsLength`; on 4 reports it succeeds
iff every report parses, its own switch PDI is a member of the accepted set,
and its attached-device PDI set has exactly `num_gpus` elements and is the
same set for all reports (`switch_report_derived_set` spells out those
per-report steps, unpacked against the parser by the third conjunct); an own
PDI outside the accepted set surfaces as the typed `SwitchPdisNotFound`
error, an attachment-count failure as the typed length error of the offending
report, and a topology-mismatch error carries the first report's accepted
attached set together with the divergent set of some other report. -/
theorem c4_switch_topology_check_spec (reports : List (List Nat))
    (num_gpus : Nat) (accepted : Finset Pdi) :
    (reports.length ≠ 4 →
      switch_topology_check reports num_gpus accepted =
        .error (.invalidSwitchAttestationReportsLength
          "Invalid number of switch attestation reports" 4 reports.length)) ∧
    (switch_topology_check reports num_gpus accepted = .ok () ↔
      reports.length = 4 ∧
        ∃ s, ∀ r ∈ reports, switch_report_derived_set num_gpus accepted r = .ok s) ∧
    (∀ r s, switch_report_derived_set num_gpus accepted r = .ok s →
      s.card = num_gpus ∧
      ∃ res, DevicePdis.extract_device_pdis_in_gpu_attestation_report_data r = .ok res ∧
        res.switch_pdis ∈ accepted ∧ s = res.switch_device_gpu_pdis.toFinset) ∧
    (switch_topology_check reports num_gpus accepted = .error .switchPdisNotFound →
      ∃ r ∈ reports,
        switch_report_derived_set num_gpus accepted r = .error .switchPdisNotFound) ∧
    (∀ m x y,
      switch_topology_check reports num_gpus accepted =
        .error (.invalidSwitchDeviceGpuPdisLength m x y) →
      ∃ r ∈ reports, switch_report_derived_set num_gpus accepted r =
        .error (.invalidSwitchDeviceGpuPdisLength m x y)) ∧
    (∀ m ex ac,
      switch_topology_check reports num_gpus accepted =
        .error (.invalidSwitchDeviceGpuPdisTopology m ex ac) →
      ac ≠ ex ∧
      (∃ r0 rest, reports = r0 :: rest ∧
        switch_report_derived_set num_gpus accepted r0 = .ok ex) ∧
      ∃ r ∈ reports, switch_report_derived_set num_gpus accepted r = .ok ac) := by
  refine ⟨?_, switch_check_ok_iff reports num_gpus accepted, ?_, ?_, ?_, ?_⟩
  · intro h
    unfold switch_topology_check
    simp only [NUMBER_OF_SWITCH_ATTESTATION_REPORTS]
    rw [if_pos h]
  · intro r s h
    unfold switch_report_derived_set at h
    split at h
    · exact absurd h (by simp)
    · rename_i res heq
      dsimp only at h
      split at h
      · exact absurd h (by simp)
      · rename_i hm
        split at h
        · exact absurd h (by simp)
        · rename_i hc
          obtain rfl := (Except.ok.inj h).symm
          exact ⟨not_not.mp hc, res, heq, not_not.mp hm, rfl⟩
  · intro h
    unfold switch_topology_check at h
    split at h
    · exact NvError.noConfusion (Except.error.inj h)
    · rename_i hl
      have h4 : reports.length = NUMBER_OF_SWITCH_ATTESTATION_REPORTS := not_not.mp hl
      have hne : reports ≠ [] := by
        intro hnil
        rw [hnil] at h4
        simp [NUMBER_OF_SWITCH_ATTESTATION_REPORTS] at h4
      obtain ⟨r, rest, rfl⟩ := List.exists_cons_of_ne_nil hne
      rcases switch_go_none_error num_gpus accepted r rest _ h with
        hfound | ⟨m', a, s0, he, _, _, _⟩
      · exact hfound
      · exact NvError.noConfusion he
  · intro m x y h
    unfold switch_topology_check at h
    split at h
    · exact NvError.noConfusion (Except.error.inj h)
    · rename_i hl
      have h4 : reports.length = NUMBER_OF_SWITCH_ATTESTATION_REPORTS := not_not.mp hl
      have hne : reports ≠ [] := by
        intro hnil
        rw [hnil] at h4
        simp [NUMBER_OF_SWITCH_ATTESTATION_REPORTS] at h4
      obtain ⟨r, rest, rfl⟩ := List.exists_cons_of_ne_nil hne
      rcases switch_go_none_error num_gpus accepted r rest _ h with
        hfound | ⟨m', a, s0, he, _, _, _⟩
      · exact hfound
      · exact NvError.noConfusion he
  · intro m ex ac h
    unfold switch_topology_check at h
    split at h
    · exact NvError.noConfusion (Except.error.inj h)
    · rename_i hl
      have h4 : reports.length = NUMBER_OF_SWITCH_ATTESTATION_REPORTS := not_not.mp hl
      have hne : reports ≠ [] := by
        intro hnil
        rw [hnil] at h4
        simp [NUMBER_OF_SWITCH_ATTESTATION_REPORTS] at h4
      obtain ⟨r, rest, rfl⟩ := List.exists_cons_of_ne_nil hne
      rcases switch_go_none_error num_gpus accepted r rest _ h with
        ⟨r', _, hd'⟩ | ⟨m', a, s0, he, hne', hd0, r', hr', hda⟩
      · exact absurd hd' (switch_derived_no_mismatch _ _ _ _ _ _)
      · injection he with h1 h2 h3
        subst h1
        subst h2
        subst h3
        exact ⟨hne', ⟨r, rest, rfl, hd0⟩, r', List.mem_cons_of_mem _ hr', hda⟩

/-- Witness for `c4_switch_topology_check_spec`: the empty input is rejected
with the typed length error. -/
theorem c4_switch_topology_check_spec_witness :
    switch_topology_check [] 8 ∅ =
      .error (.invalidSwitchAttestationReportsLength
        "Invalid number of switch attestation reports" 4 0) :=
  (c4_switch_topology_check_spec [] 8 ∅).1 (by decide)

/-- The fuel supplied by the wrapper can never run out in the topology-crate
TLV scan: each iteration advances the cursor by at least 4 bytes. -/
theorem switchpdis_go_no_fuel_exhaustion (od : List Nat) :
    ∀ fuel pos, od.length - pos < fuel →
      SwitchPdis.extract_switch_gpu_pdis_in_opaque_data_go od fuel pos ≠
        .error .fuelExhausted := by
  intro fuel
  induction fuel with
  | zero =>
    intro pos h
    omega
  | succ n ih =>
    intro pos h hcontra
    unfold SwitchPdis.extract_switch_gpu_pdis_in_opaque_data_go at hcontra
    dsimp only at hcontra
    split at hcontra
    · rename_i hpos
      split at hcontra
      · split at hcontra
        · split at hcontra
          · split at hcontra
            · exact absurd hcontra (by simp)
            · exact NvError.noConfusion (Except.error.inj hcontra)
          · refine ih _ ?_ hcontra
            simp only [SwitchPdis.OPAQUE_DATA_FIELD_TYPE,
              SwitchPdis.OPAQUE_DATA_FIELD_SIZE]
            omega
        · exact NvError.noConfusion (Except.error.inj hcontra)
      · exact NvError.noConfusion (Except.error.inj hcontra)
    · exact NvError.noConfusion (Except.error.inj hcontra)

/-- Wrapper corollary of `switchpdis_go_no_fuel_exhaustion`. -/
theorem switchpdis_extract_no_fuel_exhaustion (od : List Nat) :
    SwitchPdis.extract_switch_gpu_pdis_in_opaque_data od ≠ .error .fuelExhausted :=
  switchpdis_go_no_fuel_exhaustion od (od.length + 1) 0 (by omega)

/-- The fuel supplied by the wrapper can never run out in the device-crate
own-PDI scan: each iteration advances the cursor by at least 2 bytes. -/
theorem device_ownpdi_go_no_fuel_exhaustion (od : List Nat) :
    ∀ fuel pos, od.length - pos < fuel →
      DevicePdis.extract_switch_pdis_go od fuel pos ≠ .error .fuelExhausted := by
  intro fuel
  induction fuel with
  | zero =>
    intro pos h
    omega
  | succ n ih =>
    intro pos h hcontra
    unfold DevicePdis.extract_switch_pdis_go at hcontra
    dsimp only at hcontra
    split at hcontra
    · rename_i hpos
      split at hcontra
      · split at hcontra
        · split at hcontra
          · split at hcontra
            · exact NvError.noConfusion (Except.error.inj hcontra)
            · split at hcontra
              · exact absurd hcontra (by simp)
              · exact NvError.noConfusion (Except.error.inj hcontra)
          · refine ih _ ?_ hcontra
            simp only [DevicePdis.OPAQUE_DATA_FIELD_TYPE]
            omega
        · exact NvError.noConfusion (Except.error.inj hcontra)
      · exact NvError.noConfusion (Except.error.inj hcontra)
    · exact NvError.noConfusion (Except.error.inj hcontra)

/-- Wrapper corollary of `device_ownpdi_go_no_fuel_exhaustion`. -/
theorem device_ownpdi_extract_no_fuel_exhaustion (od : List Nat) :
    DevicePdis.extract_switch_pdis od ≠ .error .fuelExhausted :=
  device_ownpdi_go_no_fuel_exhaustion od (od.length + 1) 0 (by omega)

/-- The fuel supplied by the wrapper can never run out in the device-crate
attached-PDI scan. -/
theorem device_gpupdis_go_no_fuel_exhaustion (od : List Nat) :
    ∀ fuel pos, od.length - pos < fuel →
      DevicePdis.extract_switch_gpu_pdis_go od fuel pos ≠ .error .fuelExhausted := by
  intro fuel
  induction fuel with
  | zero =>
    intro pos h
    omega
  | succ n ih =>
    intro pos h hcontra
    unfold DevicePdis.extract_switch_gpu_pdis_go at hcontra
    dsimp only at hcontra
    split at hcontra
    · rename_i hpos
      split at hcontra
      · split at hcontra
        · split at hcontra
          · split at hcontra
            · exact absurd hcontra (by simp)
            · exact NvError.noConfusion (Except.error.inj hcontra)
          · refine ih _ ?_ hcontra
            simp only [DevicePdis.OPAQUE_DATA_FIELD_TYPE]
            omega
        · exact NvError.noConfusion (Except.error.inj hcontra)
      · exact NvError.noConfusion (Except.error.inj hcontra)
    · exact NvError.noConfusion (Except.error.inj hcontra)

/-- Wrapper corollary of `device_gpupdis_go_no_fuel_exhaustion`. -/
theorem device_gpupdis_extract_no_fuel_exhaustion (od : List Nat) (pos : Nat) :
    DevicePdis.extract_switch_gpu_pdis od pos ≠ .error .fuelExhausted :=
  device_gpupdis_go_no_fuel_exhaustion od (od.length + 1) pos (by omega)
